import Mathlib

/-!
Verification of the Collabthon repository: the collaboration-request state
machine, subscription entitlement gating, and the frontend API client.

The relational schema lives in `collabthon-backend/sql/init.sql`; the API
client and frontend logic live in `collabthon-clean/api.js`,
`collabthon-clean/integrated.js` and the unnamed frontend script.  The
FastAPI backend that implements the collaboration and subscription
endpoints is referenced by the docs and setup scripts but is not part of
this repository snapshot, so the server-side operations are modelled from
the specification (each such definition says so in its doc comment).
-/

namespace Collabthon

/-! ### Data model (from `sql/init.sql` and spec sections 3-4) -/

/-- Request status, the `status` ENUM of `collaboration_requests` in
`sql/init.sql` (line 86); its default is `pending`. -/
inductive Status where
  | pending
  | accepted
  | rejected
  | cancelled
deriving DecidableEq

/-- A status is terminal when it is not `pending`. -/
def Status.isTerminal : Status → Bool
  | .pending => false
  | _ => true

/-- Modelled from the spec: the error taxonomy of spec section 7 (the backend
module raising these errors is missing from the snapshot).  `SelfRequest`
names the rejection of a self-collaboration attempt, which the spec forbids
without naming its error. -/
inductive CollabError where
  | NotFound
  | NotAuthorized
  | InvalidTransition
  | DuplicateRequest
  | EntitlementDenied
  | SelfRequest
deriving DecidableEq

/-- Modelled from the spec: the notification-intent types emitted on each
transition (spec section 4.1). -/
inductive NotifType where
  | request_created
  | request_accepted
  | request_rejected
  | request_cancelled
deriving DecidableEq

/-- Modelled from the spec: the `emit(type, recipient_id, payload)` contract
of the notification collaborator (spec section 6), with the request id as
payload. -/
structure NotifIntent where
  ntype : NotifType
  recipient_id : Nat
  request_id : Nat
deriving DecidableEq

/-- A row of the `collaboration_requests` table (`sql/init.sql` lines
80-97).  Timestamps are modelled as natural numbers. -/
structure CollabRequest where
  id : Nat
  sender_id : Nat
  receiver_id : Nat
  project_id : Option Nat
  message : Option String
  status : Status
  created_at : Nat
  updated_at : Nat
deriving DecidableEq

/-- The store of collaboration-request rows. -/
abbrev Store := List CollabRequest

/-- The primary-key property of the `id` column (`sql/init.sql` line 89). -/
abbrev NodupIds (store : Store) : Prop :=
  (store.map CollabRequest.id).Nodup

/-- Modelled from the spec: the duplicate check of `create` — an active
`pending` request already exists for the same (sender, receiver, project)
triple (spec section 4.1). -/
def hasPendingDuplicate (store : Store) (sender receiver : Nat)
    (project : Option Nat) : Bool :=
  store.any fun r =>
    r.sender_id == sender && r.receiver_id == receiver &&
    r.project_id == project && r.status == Status.pending

/-- Lookup of a request row by its id. -/
def findRequest (store : Store) (rid : Nat) : Option CollabRequest :=
  store.find? fun r => r.id == rid

/-- In-place status update of the row with the given id, also refreshing
`updated_at` (the `ON UPDATE CURRENT_TIMESTAMP` column of the schema). -/
def setStatus (store : Store) (rid : Nat) (st : Status) (now : Nat) : Store :=
  store.map fun r =>
    if r.id == rid then { r with status := st, updated_at := now } else r

/-- Modelled from the spec: `create(sender, receiver, project?, message?)`
(spec section 4.1).  It rejects self-collaboration, then duplicates, then
entitlement (the entitlement verdict is passed in by the caller, spec
section 4.2); on success it inserts a `pending` row and emits a
`request_created` intent to the receiver. -/
def createRequest (store : Store) (newId now sender receiver : Nat)
    (project : Option Nat) (message : Option String) (senderEntitled : Bool) :
    Except CollabError (Store × NotifIntent) :=
  if sender == receiver then .error .SelfRequest
  else if hasPendingDuplicate store sender receiver project then
    .error .DuplicateRequest
  else if !senderEntitled then .error .EntitlementDenied
  else
    .ok (store ++ [{ id := newId, sender_id := sender, receiver_id := receiver,
                     project_id := project, message := message,
                     status := Status.pending, created_at := now,
                     updated_at := now }],
         { ntype := .request_created, recipient_id := receiver,
           request_id := newId })

/-- Modelled from the spec: `accept(request_id, actor)` (spec section 4.1) —
actor must equal the receiver, the status must be `pending`; on success the
status becomes `accepted` and a `request_accepted` intent goes to the
sender. -/
def acceptRequest (store : Store) (rid actor now : Nat) :
    Except CollabError (Store × NotifIntent) :=
  match findRequest store rid with
  | none => .error .NotFound
  | some r =>
    if actor != r.receiver_id then .error .NotAuthorized
    else if r.status != Status.pending then .error .InvalidTransition
    else .ok (setStatus store rid Status.accepted now,
              { ntype := .request_accepted, recipient_id := r.sender_id,
                request_id := rid })

/-- Modelled from the spec: `reject(request_id, actor)`, symmetric to accept
(spec section 4.1). -/
def rejectRequest (store : Store) (rid actor now : Nat) :
    Except CollabError (Store × NotifIntent) :=
  match findRequest store rid with
  | none => .error .NotFound
  | some r =>
    if actor != r.receiver_id then .error .NotAuthorized
    else if r.status != Status.pending then .error .InvalidTransition
    else .ok (setStatus store rid Status.rejected now,
              { ntype := .request_rejected, recipient_id := r.sender_id,
                request_id := rid })

/-- Modelled from the spec: `cancel(request_id, actor)` (spec section 4.1) —
actor must equal the sender, the status must be `pending`; on success the
status becomes `cancelled` and a `request_cancelled` intent goes to the
receiver. -/
def cancelRequest (store : Store) (rid actor now : Nat) :
    Except CollabError (Store × NotifIntent) :=
  match findRequest store rid with
  | none => .error .NotFound
  | some r =>
    if actor != r.sender_id then .error .NotAuthorized
    else if r.status != Status.pending then .error .InvalidTransition
    else .ok (setStatus store rid Status.cancelled now,
              { ntype := .request_cancelled, recipient_id := r.receiver_id,
                request_id := rid })

/-- The four mutating operations of the state machine. -/
inductive Op where
  | create (newId now sender receiver : Nat) (project : Option Nat)
      (message : Option String) (senderEntitled : Bool)
  | accept (rid actor now : Nat)
  | reject (rid actor now : Nat)
  | cancel (rid actor now : Nat)

/-- Dispatch of an operation on the store. -/
def applyOp : Op → Store → Except CollabError (Store × NotifIntent)
  | .create nid now s rcv p m ent, store => createRequest store nid now s rcv p m ent
  | .accept rid actor now, store => acceptRequest store rid actor now
  | .reject rid actor now, store => rejectRequest store rid actor now
  | .cancel rid actor now, store => cancelRequest store rid actor now

/-- The store after an operation: the new store on success, the unchanged
store when the operation fails (errors are returned to the caller, spec
section 7). -/
def stepStore (op : Op) (store : Store) : Store :=
  match applyOp op store with
  | .ok (s, _) => s
  | .error _ => store

/-- An id is fresh for a `create` operation (the AUTO_INCREMENT guarantee of
the primary key in `sql/init.sql`); non-create operations allocate no id. -/
def freshFor (op : Op) (store : Store) : Bool :=
  match op with
  | .create nid _ _ _ _ _ _ => !(store.any fun r => r.id == nid)
  | _ => true

/-- Modelled from the spec: the at-most-one-pending-per-triple invariant of
spec sections 3 and 8, stated pairwise over the store. -/
abbrev PendingUnique (store : Store) : Prop :=
  store.Pairwise fun r1 r2 =>
    ¬(r1.status = Status.pending ∧ r2.status = Status.pending ∧
      r1.sender_id = r2.sender_id ∧ r1.receiver_id = r2.receiver_id ∧
      r1.project_id = r2.project_id)

/-! ### Listing (spec section 4.1, `list`); the endpoints are
`/collaborations/sent` and `/collaborations/received` of `api.js`
(`getSentRequests`, `getReceivedRequests`). -/

/-- The two listing directions of `api.js` (`getSentRequests` and
`getReceivedRequests`). -/
inductive Direction where
  | sent
  | received
deriving DecidableEq

/-- A request matches a direction for an identity when that identity is its
sender (direction `sent`) or its receiver (direction `received`). -/
def matchesDirection (ident : Nat) (d : Direction) (r : CollabRequest) : Bool :=
  match d with
  | .sent => r.sender_id == ident
  | .received => r.receiver_id == ident

/-- The optional status filter of the listing endpoints (`status` query
parameter in `api.js`). -/
def matchesFilter (sf : Option Status) (r : CollabRequest) : Bool :=
  match sf with
  | none => true
  | some st => r.status == st

/-- Modelled from the spec: the ordering of the listing — `created_at`
descending, ties broken by `id` descending (spec section 4.1). `reqBefore a b`
holds when `a` must come strictly before `b`. -/
def reqBefore (a b : CollabRequest) : Bool :=
  decide (b.created_at < a.created_at) ||
    (a.created_at == b.created_at && decide (b.id < a.id))

/-- Insertion step of the sort by `reqBefore`. -/
def insertReq (a : CollabRequest) : List CollabRequest → List CollabRequest
  | [] => [a]
  | b :: l => if reqBefore a b then a :: b :: l else b :: insertReq a l

/-- Insertion sort by `reqBefore`. -/
def sortReqs : List CollabRequest → List CollabRequest
  | [] => []
  | a :: l => insertReq a (sortReqs l)

/-- Modelled from the spec: `list(identity, direction, status_filter?)`
(spec section 4.1) — a pure read returning the matching requests ordered by
`created_at` descending with ties broken by `id` descending. -/
def listRequests (store : Store) (ident : Nat) (d : Direction)
    (sf : Option Status) : List CollabRequest :=
  sortReqs (store.filter fun r => matchesDirection ident d r && matchesFilter sf r)

/-- The non-strict ordering relation underlying `reqBefore`: `a` may come
before `b`. -/
def reqGE (a b : CollabRequest) : Prop :=
  b.created_at < a.created_at ∨ (a.created_at = b.created_at ∧ b.id ≤ a.id)

/-- The strict ordering relation of the listing: `created_at` descending,
ties broken by `id` descending. -/
def reqGT (a b : CollabRequest) : Prop :=
  b.created_at < a.created_at ∨ (a.created_at = b.created_at ∧ b.id < a.id)

/-! ### Subscriptions and entitlement gating (`sql/init.sql` lines 100-116,
spec section 4.2). -/

/-- The `plan` ENUM of the `subscriptions` table (`sql/init.sql` line 103). -/
inductive Plan where
  | free
  | professional
  | enterprise
deriving DecidableEq

/-- Modelled from the spec: the gated capabilities (spec section 4.2 names
"create collaboration request" and "access advanced search"; the remaining
capabilities mirror the tier descriptions of the backend README). -/
inductive Feature where
  | create_collaboration_request
  | basic_search
  | advanced_search
  | unlimited_requests
  | analytics_dashboard
  | priority_support
deriving DecidableEq

/-- Modelled from the spec: each plan's entitlement set, strictly increasing
with the tier (spec section 3 invariant; README tier descriptions). -/
def planFeatures : Plan → List Feature
  | .free => [.create_collaboration_request, .basic_search]
  | .professional =>
    [.create_collaboration_request, .basic_search, .advanced_search,
     .unlimited_requests]
  | .enterprise =>
    [.create_collaboration_request, .basic_search, .advanced_search,
     .unlimited_requests, .analytics_dashboard, .priority_support]

/-- A row of the `subscriptions` table (`sql/init.sql` lines 100-116),
restricted to the columns the decision rule reads. -/
structure Subscription where
  plan : Plan
  is_active : Bool
  expires_at : Option Nat
deriving DecidableEq

/-- A subscription is expired at time `now` when its expiry is set and does
not lie in the future. -/
def subExpired (sub : Subscription) (now : Nat) : Bool :=
  match sub.expires_at with
  | none => false
  | some e => decide (e ≤ now)

/-- Modelled from the spec: an expired or inactive subscription is treated
as the implicit `free` tier, never as an error (spec section 4.2). -/
def effectivePlan (sub : Subscription) (now : Nat) : Plan :=
  if sub.is_active && !subExpired sub now then sub.plan else Plan.free

/-- Modelled from the spec: the entitlement decision behind the
`/subscriptions/check/{userId}/{feature}` endpoint (`checkFeatureAccess` in
`api.js`) — a pure function of the subscription record (spec section 4.2). -/
def checkFeatureAccess (sub : Subscription) (now : Nat) (f : Feature) : Bool :=
  decide (f ∈ planFeatures (effectivePlan sub now))

/-! ### Frontend initial-data load and mock fallback
(`collabthon-clean/integrated.js` lines 110-139 and the unnamed frontend
script, `loadInitialData` / `loadMockData`). -/

/-- A project card as used by the frontend mock data (`getMockProjects`).
The JS objects carry these fields; skills are modelled as the list that the
JS stores. -/
structure MockProject where
  id : Nat
  title : String
  description : String
  required_skills : List String
  budget_min : Nat
  budget_max : Nat
  status : String
deriving DecidableEq

/-- A profile card as used by the frontend mock data. The JS stores `skills`
JSON-stringified; it is modelled as the underlying list. The `role` field is
present only in the unnamed script's profiles. -/
structure MockProfile where
  user_id : Nat
  first_name : String
  last_name : String
  college : String
  bio : String
  skills : List String
  experience : String
  role : Option String
deriving DecidableEq

/-- `getMockProjects` from `integrated.js` lines 224-245 (identical in the
unnamed script, lines 1090-1111). -/
def getMockProjects : List MockProject :=
  [{ id := 1, title := "E-commerce Mobile App",
     description := "Building a React Native e-commerce application with payment integration",
     required_skills := ["React Native", "Firebase", "Stripe"],
     budget_min := 3000, budget_max := 5000, status := "open" },
   { id := 2, title := "Machine Learning Model",
     description := "Developing a recommendation system using Python and TensorFlow",
     required_skills := ["Python", "TensorFlow", "Data Science"],
     budget_min := 5000, budget_max := 8000, status := "open" }]

/-- `getMockProfiles` from `integrated.js` lines 247-268. -/
def getMockProfiles : List MockProfile :=
  [{ user_id := 1, first_name := "Rohan", last_name := "Shelar",
     college := "IIT Bombay",
     bio := "Full-stack developer passionate about building scalable web applications",
     skills := ["React", "Node.js", "Python"], experience := "2 years",
     role := none },
   { user_id := 2, first_name := "Priya", last_name := "Sharma",
     college := "Delhi University",
     bio := "Data science enthusiast with expertise in machine learning algorithms",
     skills := ["Python", "TensorFlow", "SQL"], experience := "1 year",
     role := none }]

/-- `getIndianStudentProfiles` from the unnamed frontend script, lines
725-928. -/
def getIndianStudentProfiles : List MockProfile :=
  [{ user_id := 1, first_name := "Arjun", last_name := "Patel",
     college := "IIT Bombay",
     bio := "Full Stack Developer with expertise in MERN stack and cloud technologies.",
     skills := ["React", "Node.js", "MongoDB", "AWS"],
     experience := "3 years", role := some "Full Stack Developer" },
   { user_id := 2, first_name := "Priya", last_name := "Sharma",
     college := "IIT Delhi",
     bio := "ML Engineer specializing in computer vision and NLP applications.",
     skills := ["Python", "TensorFlow", "PyTorch", "OpenCV"],
     experience := "2 years", role := some "ML Engineer" },
   { user_id := 3, first_name := "Rohan", last_name := "Mehta",
     college := "IIT Madras",
     bio := "Mobile App Developer creating cross-platform solutions with Flutter.",
     skills := ["Flutter", "Dart", "Firebase", "API Integration"],
     experience := "2 years", role := some "Mobile Developer" },
   { user_id := 4, first_name := "Ananya", last_name := "Singh",
     college := "NID Ahmedabad",
     bio := "UI/UX Designer focused on creating intuitive user experiences.",
     skills := ["Figma", "Adobe XD", "Prototyping", "User Research"],
     experience := "3 years", role := some "UI/UX Designer" },
   { user_id := 5, first_name := "Vikram", last_name := "Kumar",
     college := "BITS Pilani",
     bio := "DevOps Engineer with expertise in cloud infrastructure and CI/CD.",
     skills := ["AWS", "Docker", "Kubernetes", "Jenkins"],
     experience := "2 years", role := some "DevOps Engineer" },
   { user_id := 6, first_name := "Meera", last_name := "Desai",
     college := "IISc Bangalore",
     bio := "Data Scientist with strong statistical modeling and visualization skills.",
     skills := ["Python", "R", "SQL", "Tableau"],
     experience := "2 years", role := some "Data Scientist" },
   { user_id := 7, first_name := "Karan", last_name := "Gupta",
     college := "IIIT Hyderabad",
     bio := "Blockchain developer building decentralized applications.",
     skills := ["Solidity", "Ethereum", "Web3.js", "Smart Contracts"],
     experience := "1 year", role := some "Blockchain Developer" },
   { user_id := 8, first_name := "Sneha", last_name := "Reddy",
     college := "Jadavpur University",
     bio := "Cybersecurity analyst with expertise in ethical hacking.",
     skills := ["Network Security", "Ethical Hacking", "Risk Assessment", "SIEM"],
     experience := "2 years", role := some "Security Analyst" },
   { user_id := 9, first_name := "Aditya", last_name := "Verma",
     college := "DITU, Greater Noida",
     bio := "Game developer passionate about creating immersive experiences.",
     skills := ["Unity", "C#", "3D Modeling", "VR/AR"],
     experience := "1 year", role := some "Game Developer" },
   { user_id := 10, first_name := "Neha", last_name := "Joshi",
     college := "XLRI Jamshedpur",
     bio := "Product Manager with technical background in software development.",
     skills := ["Agile", "Scrum", "Product Strategy", "Market Research"],
     experience := "3 years", role := some "Product Manager" },
   { user_id := 11, first_name := "Rajesh", last_name := "Pillai",
     college := "Anna University",
     bio := "Cloud architect designing scalable enterprise solutions.",
     skills := ["Azure", "GCP", "Microservices", "Serverless"],
     experience := "4 years", role := some "Cloud Architect" },
   { user_id := 12, first_name := "Tanvi", last_name := "Shah",
     college := "DAIICT Gandhinagar",
     bio := "Frontend specialist creating responsive and accessible interfaces.",
     skills := ["React", "Vue.js", "TypeScript", "GraphQL"],
     experience := "2 years", role := some "Frontend Engineer" },
   { user_id := 13, first_name := "Manish", last_name := "Rao",
     college := "COEP Pune",
     bio := "Backend engineer specializing in high-performance systems.",
     skills := ["Go", "Python", "Redis", "PostgreSQL"],
     experience := "2 years", role := some "Backend Developer" },
   { user_id := 14, first_name := "Kavya", last_name := "Nair",
     college := "Christ University",
     bio := "Content strategist with technical writing expertise.",
     skills := ["SEO", "Technical Writing", "Brand Strategy", "Content Marketing"],
     experience := "2 years", role := some "Content Strategist" },
   { user_id := 15, first_name := "Deepak", last_name := "Menon",
     college := "NIT Trichy",
     bio := "IoT developer building connected device ecosystems.",
     skills := ["Embedded Systems", "Raspberry Pi", "Arduino", "MQTT"],
     experience := "2 years", role := some "IoT Developer" },
   { user_id := 16, first_name := "Pooja", last_name := "Bhatia",
     college := "Thapar Institute",
     bio := "QA engineer specializing in test automation frameworks.",
     skills := ["Selenium", "Cypress", "JUnit", "TestNG"],
     experience := "2 years", role := some "QA Automation Engineer" },
   { user_id := 17, first_name := "Siddharth", last_name := "Iyer",
     college := "SRM University",
     bio := "AR/VR developer creating immersive digital experiences.",
     skills := ["Unity3D", "ARKit", "ARCore", "3D Graphics"],
     experience := "1 year", role := some "AR/VR Developer" },
   { user_id := 18, first_name := "Ritu", last_name := "Malhotra",
     college := "IMT Ghaziabad",
     bio := "Business analyst bridging technical and business teams.",
     skills := ["Requirements Gathering", "Process Modeling", "Data Analysis", "Stakeholder Management"],
     experience := "3 years", role := some "Business Analyst" },
   { user_id := 19, first_name := "Amitabh", last_name := "Choudhary",
     college := "BIT Mesra",
     bio := "Database administrator ensuring optimal performance and security.",
     skills := ["Oracle", "MySQL", "MongoDB", "Database Design"],
     experience := "3 years", role := some "Database Administrator" },
   { user_id := 20, first_name := "Swati", last_name := "Agarwal",
     college := "MICA Ahmedabad",
     bio := "Digital marketing specialist driving growth through data-driven campaigns.",
     skills := ["PPC", "Social Media", "Analytics", "Growth Hacking"],
     experience := "2 years", role := some "Digital Marketing Specialist" }]

/-- The slice of the frontend's `currentState` object touched by the
initial-data load (`projects` and `profiles`). -/
structure FrontendState where
  projects : List MockProject
  profiles : List MockProfile
deriving DecidableEq

/-- The outcome of one awaited API call: the parsed value or the thrown
error's message. -/
inductive FetchResult (α : Type) where
  | ok (value : α)
  | err (message : String)

/-- Whether a fetch outcome is a thrown error. -/
def FetchResult.isErr {α : Type} : FetchResult α → Bool
  | .ok _ => false
  | .err _ => true

/-- A toast created by `showNotification(message, type)`. -/
structure ShownToast where
  message : String
  kind : String
deriving DecidableEq

/-- `loadMockData` from `integrated.js` lines 133-139: overwrite both
`projects` and `profiles` with the hard-coded mock data. -/
def loadMockData (st : FrontendState) : FrontendState :=
  { st with projects := getMockProjects, profiles := getMockProfiles }

/-- `loadInitialData` from `integrated.js` lines 110-131: three sequential
awaited calls inside one `try`; the `catch` logs to the console and falls
back to `loadMockData` without showing any toast.  The result pairs the
final state with the toasts shown. -/
def loadInitialData (st : FrontendState)
    (projectsResp : FetchResult (List MockProject))
    (profilesResp : FetchResult (List MockProfile))
    (statsResp : FetchResult Nat) : FrontendState × List ShownToast :=
  match projectsResp with
  | .err _ => (loadMockData st, [])
  | .ok ps =>
    match profilesResp with
    | .err _ => (loadMockData { st with projects := ps }, [])
    | .ok pfs =>
      match statsResp with
      | .err _ => (loadMockData { st with projects := ps, profiles := pfs }, [])
      | .ok _ => ({ st with projects := ps, profiles := pfs }, [])

/-- `loadMockData` from the unnamed frontend script, lines 580-586: uses
`getIndianStudentProfiles` for the profiles. -/
def loadMockDataMain (st : FrontendState) : FrontendState :=
  { st with projects := getMockProjects, profiles := getIndianStudentProfiles }

/-- `loadInitialData` from the unnamed frontend script, lines 556-578: as in
`integrated.js`, but the `catch` additionally shows an `info` toast before
falling back to the mock data. -/
def loadInitialDataMain (st : FrontendState)
    (projectsResp : FetchResult (List MockProject))
    (profilesResp : FetchResult (List MockProfile))
    (statsResp : FetchResult Nat) : FrontendState × List ShownToast :=
  let toast : ShownToast :=
    { message := "Could not connect to server, loading demo content",
      kind := "info" }
  match projectsResp with
  | .err _ => (loadMockDataMain st, [toast])
  | .ok ps =>
    match profilesResp with
    | .err _ => (loadMockDataMain { st with projects := ps }, [toast])
    | .ok pfs =>
      match statsResp with
      | .err _ =>
        (loadMockDataMain { st with projects := ps, profiles := pfs }, [toast])
      | .ok _ => ({ st with projects := ps, profiles := pfs }, [])

/-! ### API client `getCurrentUser` (`collabthon-clean/api.js` lines 85-95). -/

/-- The error thrown by `request` in `api.js`: an `Error` whose `message` is
either the server's `detail` field or `HTTP <status>: <statusText>`. -/
structure ApiError where
  message : String
deriving DecidableEq

/-- Substring test over character lists, mirroring JavaScript
`String.prototype.includes`. -/
def includesChars (needle : List Char) : List Char → Bool
  | [] => needle.isEmpty
  | c :: cs => needle.isPrefixOf (c :: cs) || includesChars needle cs

/-- `message.includes(pat)` of JavaScript, over Lean strings. -/
def strIncludes (s pat : String) : Bool :=
  includesChars pat.toList s.toList

/-- `getCurrentUser` from `api.js` lines 85-95: await `request('/auth/me')`;
on a thrown error whose message includes `401` or `403`, return `null`;
otherwise re-throw the same error. -/
def getCurrentUser {α : Type} (resp : Except ApiError α) :
    Except ApiError (Option α) :=
  match resp with
  | .ok u => .ok (some u)
  | .error e =>
    if strIncludes e.message "401" || strIncludes e.message "403" then .ok none
    else .error e

/-! ### Helper lemmas about the store operations -/

/-- Under the primary-key property, rows are determined by their id. -/
theorem id_inj {store : Store} (h : NodupIds store) {x y : CollabRequest}
    (hx : x ∈ store) (hy : y ∈ store) (hxy : x.id = y.id) : x = y :=
  List.inj_on_of_nodup_map h hx hy hxy

/-- Under the primary-key property, `findRequest` returns exactly the member
row with the requested id. -/
theorem findRequest_eq_some_of_mem {store : Store} {r : CollabRequest}
    {rid : Nat} (h : NodupIds store) (hr : r ∈ store) (hid : r.id = rid) :
    findRequest store rid = some r := by
  have hp : (fun x : CollabRequest => x.id == rid) r = true := by
    simp [hid]
  rcases hfind : findRequest store rid with _ | q
  · exact absurd (List.find?_eq_none.mp hfind r hr) (by simp [hp])
  · have hqmem : q ∈ store := List.mem_of_find?_eq_some hfind
    have hqid : q.id = rid := by
      simpa using List.find?_some hfind
    exact congrArg some (id_inj h hqmem hr (hqid.trans hid.symm)).symm ▸ rfl

/-- Membership in `setStatus` in terms of membership in the store. -/
theorem mem_setStatus {store : Store} {r' : CollabRequest} {rid : Nat}
    {st : Status} {now : Nat} :
    r' ∈ setStatus store rid st now ↔
      ∃ r ∈ store,
        (if r.id == rid then { r with status := st, updated_at := now }
         else r) = r' := by
  simp [setStatus, List.mem_map]

/-- `setStatus` keeps the column of ids unchanged. -/
theorem setStatus_map_id {store : Store} {rid : Nat} {st : Status}
    {now : Nat} :
    (setStatus store rid st now).map CollabRequest.id =
      store.map CollabRequest.id := by
  simp only [setStatus, List.map_map]
  apply List.map_congr_left
  intro a _
  by_cases h : (a.id == rid) = true <;> simp [Function.comp, h]

/-- The two facts of claim C1 for an unchanged store. -/
theorem unchanged_step_props {store : Store} (hids : NodupIds store) :
    (∀ r' ∈ store,
        r'.status = Status.pending ∨
        ∃ r ∈ store, r.id = r'.id ∧
          (r'.status = r.status ∨
            (r.status = Status.pending ∧ r'.status.isTerminal = true)))
    ∧ ∀ r ∈ store, r.status.isTerminal = true →
        ∀ r' ∈ store, r'.id = r.id → r' = r := by
  constructor
  · intro r' hr'
    exact Or.inr ⟨r', hr', rfl, Or.inl rfl⟩
  · intro r hr _ r' hr' hid'
    exact id_inj hids hr' hr hid'

/-- The two facts of claim C1 for a successful `setStatus` transition out of
a pending row. -/
theorem setStatus_step_props {store : Store} {q : CollabRequest}
    {rid now : Nat} {st : Status} (hids : NodupIds store) (hq : q ∈ store)
    (hqid : q.id = rid) (hqp : q.status = Status.pending)
    (hst : st.isTerminal = true) :
    (∀ r' ∈ setStatus store rid st now,
        ∃ r ∈ store, r.id = r'.id ∧
          (r'.status = r.status ∨
            (r.status = Status.pending ∧ r'.status.isTerminal = true)))
    ∧ ∀ r ∈ store, r.status.isTerminal = true →
        ∀ r' ∈ setStatus store rid st now, r'.id = r.id → r' = r := by
  constructor
  · intro r' hr'
    obtain ⟨r, hr, hfr⟩ := mem_setStatus.mp hr'
    by_cases hcase : (r.id == rid) = true
    · have hridq : r.id = q.id := by
        rw [hqid]
        simpa using hcase
      have hrq : r = q := id_inj hids hr hq hridq
      refine ⟨r, hr, ?_, Or.inr ⟨?_, ?_⟩⟩
      · rw [← hfr]
        simp [hcase]
      · rw [hrq]
        exact hqp
      · rw [← hfr]
        simp [hcase, hst]
    · have hrr : r = r' := by
        rw [← hfr]
        simp [hcase]
      exact ⟨r, hr, by rw [hrr], Or.inl (by rw [hrr])⟩
  · intro r hr hterm r' hr' hid'
    obtain ⟨r0, hr0, hfr0⟩ := mem_setStatus.mp hr'
    by_cases hcase : (r0.id == rid) = true
    · exfalso
      have hr0q : r0 = q := by
        refine id_inj hids hr0 hq ?_
        rw [hqid]
        simpa using hcase
      have hidr0 : r'.id = r0.id := by
        rw [← hfr0]
        simp [hcase]
      have hr0r : r0 = r := id_inj hids hr0 hr (hidr0 ▸ hid')
      rw [hr0r] at hr0q
      rw [hr0q, hqp] at hterm
      simp [Status.isTerminal] at hterm
    · have hrr : r0 = r' := by
        rw [← hfr0]
        simp [hcase]
      rw [← hrr] at hid' ⊢
      exact id_inj hids hr0 hr hid'

/-- C1: for every collaboration request the status starts at `pending` (the
only initial state) and changes only along pending→accepted,
pending→rejected, pending→cancelled; accepted, rejected and cancelled are
terminal, and no operation transitions a request out of a terminal state. -/
theorem collab_c1 (op : Op) (store : Store) (hids : NodupIds store)
    (hfresh : freshFor op store = true) :
    (∀ r' ∈ stepStore op store,
        r'.status = Status.pending ∨
        ∃ r ∈ store, r.id = r'.id ∧
          (r'.status = r.status ∨
            (r.status = Status.pending ∧ r'.status.isTerminal = true)))
    ∧ ∀ r ∈ store, r.status.isTerminal = true →
        ∀ r' ∈ stepStore op store, r'.id = r.id → r' = r := by
  cases op with
  | create nid now s rcv p m ent =>
    have hfresh' : ∀ x ∈ store, (x.id == nid) = false := by
      simpa [freshFor, List.any_eq_false] using hfresh
    by_cases h1 : (s == rcv) = true
    · have hstep : stepStore (Op.create nid now s rcv p m ent) store = store := by
        simp [stepStore, applyOp, createRequest, h1]
      rw [hstep]
      exact unchanged_step_props hids
    · by_cases h2 : hasPendingDuplicate store s rcv p = true
      · have hstep : stepStore (Op.create nid now s rcv p m ent) store = store := by
          simp [stepStore, applyOp, createRequest, h1, h2]
        rw [hstep]
        exact unchanged_step_props hids
      · by_cases h3 : ent = true
        · have hstep : stepStore (Op.create nid now s rcv p m ent) store =
              store ++ [{ id := nid, sender_id := s, receiver_id := rcv,
                          project_id := p, message := m,
                          status := Status.pending, created_at := now,
                          updated_at := now }] := by
            simp [stepStore, applyOp, createRequest, h1, h2, h3]
          rw [hstep]
          constructor
          · intro r' hr'
            rcases List.mem_append.mp hr' with h | h
            · exact Or.inr ⟨r', h, rfl, Or.inl rfl⟩
            · left
              have hr'new := List.mem_singleton.mp h
              rw [hr'new]
          · intro r hr hterm r' hr' hid'
            rcases List.mem_append.mp hr' with h | h
            · exact id_inj hids h hr hid'
            · exfalso
              have hr'new := List.mem_singleton.mp h
              have hidn : r.id = nid := by
                rw [← hid', hr'new]
              have hf := hfresh' r hr
              rw [hidn] at hf
              simp at hf
        · have h3' : ent = false := by
            simpa using h3
          have hstep : stepStore (Op.create nid now s rcv p m ent) store = store := by
            simp [stepStore, applyOp, createRequest, h1, h2, h3']
          rw [hstep]
          exact unchanged_step_props hids
  | accept rid actor now =>
    rcases hfq : findRequest store rid with _ | q
    · have hstep : stepStore (Op.accept rid actor now) store = store := by
        simp [stepStore, applyOp, acceptRequest, hfq]
      rw [hstep]
      exact unchanged_step_props hids
    · have hqmem : q ∈ store := List.mem_of_find?_eq_some hfq
      have hqid : q.id = rid := by
        simpa using List.find?_some hfq
      by_cases h1 : (actor != q.receiver_id) = true
      · have hstep : stepStore (Op.accept rid actor now) store = store := by
          simp [stepStore, applyOp, acceptRequest, hfq, h1]
        rw [hstep]
        exact unchanged_step_props hids
      · by_cases h2 : (q.status != Status.pending) = true
        · have hstep : stepStore (Op.accept rid actor now) store = store := by
            simp [stepStore, applyOp, acceptRequest, hfq, h1, h2]
          rw [hstep]
          exact unchanged_step_props hids
        · have hqp : q.status = Status.pending := by
            simpa using h2
          have hstep : stepStore (Op.accept rid actor now) store =
              setStatus store rid Status.accepted now := by
            simp [stepStore, applyOp, acceptRequest, hfq, h1, h2]
          rw [hstep]
          refine ⟨fun r' hr' => Or.inr ?_, ?_⟩
          · exact (setStatus_step_props hids hqmem hqid hqp
              (show Status.accepted.isTerminal = true from rfl)).1 r' hr'
          · exact (setStatus_step_props hids hqmem hqid hqp
              (show Status.accepted.isTerminal = true from rfl)).2
  | reject rid actor now =>
    rcases hfq : findRequest store rid with _ | q
    · have hstep : stepStore (Op.reject rid actor now) store = store := by
        simp [stepStore, applyOp, rejectRequest, hfq]
      rw [hstep]
      exact unchanged_step_props hids
    · have hqmem : q ∈ store := List.mem_of_find?_eq_some hfq
      have hqid : q.id = rid := by
        simpa using List.find?_some hfq
      by_cases h1 : (actor != q.receiver_id) = true
      · have hstep : stepStore (Op.reject rid actor now) store = store := by
          simp [stepStore, applyOp, rejectRequest, hfq, h1]
        rw [hstep]
        exact unchanged_step_props hids
      · by_cases h2 : (q.status != Status.pending) = true
        · have hstep : stepStore (Op.reject rid actor now) store = store := by
            simp [stepStore, applyOp, rejectRequest, hfq, h1, h2]
          rw [hstep]
          exact unchanged_step_props hids
        · have hqp : q.status = Status.pending := by
            simpa using h2
          have hstep : stepStore (Op.reject rid actor now) store =
              setStatus store rid Status.rejected now := by
            simp [stepStore, applyOp, rejectRequest, hfq, h1, h2]
          rw [hstep]
          refine ⟨fun r' hr' => Or.inr ?_, ?_⟩
          · exact (setStatus_step_props hids hqmem hqid hqp
              (show Status.rejected.isTerminal = true from rfl)).1 r' hr'
          · exact (setStatus_step_props hids hqmem hqid hqp
              (show Status.rejected.isTerminal = true from rfl)).2
  | cancel rid actor now =>
    rcases hfq : findRequest store rid with _ | q
    · have hstep : stepStore (Op.cancel rid actor now) store = store := by
        simp [stepStore, applyOp, cancelRequest, hfq]
      rw [hstep]
      exact unchanged_step_props hids
    · have hqmem : q ∈ store := List.mem_of_find?_eq_some hfq
      have hqid : q.id = rid := by
        simpa using List.find?_some hfq
      by_cases h1 : (actor != q.sender_id) = true
      · have hstep : stepStore (Op.cancel rid actor now) store = store := by
          simp [stepStore, applyOp, cancelRequest, hfq, h1]
        rw [hstep]
        exact unchanged_step_props hids
      · by_cases h2 : (q.status != Status.pending) = true
        · have hstep : stepStore (Op.cancel rid actor now) store = store := by
            simp [stepStore, applyOp, cancelRequest, hfq, h1, h2]
          rw [hstep]
          exact unchanged_step_props hids
        · have hqp : q.status = Status.pending := by
            simpa using h2
          have hstep : stepStore (Op.cancel rid actor now) store =
              setStatus store rid Status.cancelled now := by
            simp [stepStore, applyOp, cancelRequest, hfq, h1, h2]
          rw [hstep]
          refine ⟨fun r' hr' => Or.inr ?_, ?_⟩
          · exact (setStatus_step_props hids hqmem hqid hqp
              (show Status.cancelled.isTerminal = true from rfl)).1 r' hr'
          · exact (setStatus_step_props hids hqmem hqid hqp
              (show Status.cancelled.isTerminal = true from rfl)).2

/-- Every operation leaves the store unchanged, appends one fresh `pending`
row after a failed duplicate check, or rewrites one row's status via
`setStatus` with a non-pending status. -/
theorem stepStore_shape (op : Op) (store : Store) :
    stepStore op store = store ∨
    (∃ (nid now s rcv : Nat) (p : Option Nat) (m : Option String),
        (s == rcv) = false ∧ hasPendingDuplicate store s rcv p = false ∧
        stepStore op store =
          store ++ [{ id := nid, sender_id := s, receiver_id := rcv,
                      project_id := p, message := m,
                      status := Status.pending, created_at := now,
                      updated_at := now }]) ∨
    (∃ (rid now : Nat) (st : Status), st ≠ Status.pending ∧
        stepStore op store = setStatus store rid st now) := by
  cases op with
  | create nid now s rcv p m ent =>
    by_cases h1 : (s == rcv) = true
    · left
      simp [stepStore, applyOp, createRequest, h1]
    · by_cases h2 : hasPendingDuplicate store s rcv p = true
      · left
        simp [stepStore, applyOp, createRequest, h1, h2]
      · by_cases h3 : ent = true
        · right
          left
          refine ⟨nid, now, s, rcv, p, m, by simpa using h1, by simpa using h2, ?_⟩
          simp [stepStore, applyOp, createRequest, h1, h2, h3]
        · left
          have h3' : ent = false := by
            simpa using h3
          simp [stepStore, applyOp, createRequest, h1, h2, h3']
  | accept rid actor now =>
    rcases hfq : findRequest store rid with _ | q
    · left
      simp [stepStore, applyOp, acceptRequest, hfq]
    · by_cases h1 : (actor != q.receiver_id) = true
      · left
        simp [stepStore, applyOp, acceptRequest, hfq, h1]
      · by_cases h2 : (q.status != Status.pending) = true
        · left
          simp [stepStore, applyOp, acceptRequest, hfq, h1, h2]
        · right
          right
          exact ⟨rid, now, Status.accepted, by simp,
            by simp [stepStore, applyOp, acceptRequest, hfq, h1, h2]⟩
  | reject rid actor now =>
    rcases hfq : findRequest store rid with _ | q
    · left
      simp [stepStore, applyOp, rejectRequest, hfq]
    · by_cases h1 : (actor != q.receiver_id) = true
      · left
        simp [stepStore, applyOp, rejectRequest, hfq, h1]
      · by_cases h2 : (q.status != Status.pending) = true
        · left
          simp [stepStore, applyOp, rejectRequest, hfq, h1, h2]
        · right
          right
          exact ⟨rid, now, Status.rejected, by simp,
            by simp [stepStore, applyOp, rejectRequest, hfq, h1, h2]⟩
  | cancel rid actor now =>
    rcases hfq : findRequest store rid with _ | q
    · left
      simp [stepStore, applyOp, cancelRequest, hfq]
    · by_cases h1 : (actor != q.sender_id) = true
      · left
        simp [stepStore, applyOp, cancelRequest, hfq, h1]
      · by_cases h2 : (q.status != Status.pending) = true
        · left
          simp [stepStore, applyOp, cancelRequest, hfq, h1, h2]
        · right
          right
          exact ⟨rid, now, Status.cancelled, by simp,
            by simp [stepStore, applyOp, cancelRequest, hfq, h1, h2]⟩

/-- `setStatus` with a non-pending status preserves the
at-most-one-pending-per-triple invariant. -/
theorem pendingUnique_setStatus {store : Store} {rid now : Nat} {st : Status}
    (hst : st ≠ Status.pending) (h : PendingUnique store) :
    PendingUnique (setStatus store rid st now) := by
  have hstat : ∀ c : CollabRequest,
      ((if c.id == rid then { c with status := st, updated_at := now }
        else c) : CollabRequest).status = Status.pending →
      c.status = Status.pending := by
    intro c
    by_cases hc : (c.id == rid) = true <;> simp [hc]
    intro hcontra
    exact absurd hcontra hst
  have hkeep : ∀ c : CollabRequest,
      (((if c.id == rid then { c with status := st, updated_at := now }
         else c) : CollabRequest).sender_id = c.sender_id ∧
       ((if c.id == rid then { c with status := st, updated_at := now }
         else c) : CollabRequest).receiver_id = c.receiver_id ∧
       ((if c.id == rid then { c with status := st, updated_at := now }
         else c) : CollabRequest).project_id = c.project_id) := by
    intro c
    by_cases hc : (c.id == rid) = true <;> simp [hc]
  unfold PendingUnique at h ⊢
  unfold setStatus
  rw [List.pairwise_map]
  refine h.imp ?_
  intro a b hab hbad
  apply hab
  obtain ⟨hpa, hpb, hsend, hrecv, hproj⟩ := hbad
  refine ⟨hstat a hpa, hstat b hpb, ?_, ?_, ?_⟩
  · rw [← (hkeep a).1, ← (hkeep b).1]
    exact hsend
  · rw [← (hkeep a).2.1, ← (hkeep b).2.1]
    exact hrecv
  · rw [← (hkeep a).2.2, ← (hkeep b).2.2]
    exact hproj

/-- C2: at most one pending request per (sender, receiver, project) triple
is preserved by every operation, and a create for a triple that already has
an active pending request fails with `DuplicateRequest` and creates no new
record. -/
theorem collab_c2 :
    (∀ (op : Op) (store : Store), PendingUnique store →
        PendingUnique (stepStore op store))
    ∧ ∀ (store : Store) (nid now s rcv : Nat) (p : Option Nat)
        (m : Option String) (ent : Bool), s ≠ rcv →
        hasPendingDuplicate store s rcv p = true →
        createRequest store nid now s rcv p m ent =
          .error CollabError.DuplicateRequest ∧
        stepStore (Op.create nid now s rcv p m ent) store = store := by
  constructor
  · intro op store h
    rcases stepStore_shape op store with hs |
      ⟨nid, now, s, rcv, p, m, hne, hdup, hs⟩ | ⟨rid, now, st, hst, hs⟩
    · rw [hs]
      exact h
    · rw [hs]
      unfold PendingUnique at h ⊢
      rw [List.pairwise_append]
      refine ⟨h, List.pairwise_singleton _ _, ?_⟩
      intro a ha b hb
      have hb' := List.mem_singleton.mp hb
      subst hb'
      intro hbad
      obtain ⟨hpa, _, hsend, hrecv, hproj⟩ := hbad
      have hfalse : ∀ x ∈ store, x.sender_id = s → x.receiver_id = rcv →
          x.project_id = p → ¬x.status = Status.pending := by
        simpa [hasPendingDuplicate] using hdup
      exact hfalse a ha (by simpa using hsend) (by simpa using hrecv)
        (by simpa using hproj) hpa
    · rw [hs]
      exact pendingUnique_setStatus hst h
  · intro store nid now s rcv p m ent hne hdup
    have h1 : (s == rcv) = false := by
      simpa using hne
    constructor
    · simp [createRequest, h1, hdup]
    · simp [stepStore, applyOp, createRequest, h1, hdup]

/-- C5: create rejects any attempt where the sender and receiver identities
are equal, and no operation introduces a stored request whose sender equals
its receiver. -/
theorem collab_c5 :
    (∀ (store : Store) (nid now s : Nat) (p : Option Nat)
        (m : Option String) (ent : Bool),
        createRequest store nid now s s p m ent =
          .error CollabError.SelfRequest ∧
        stepStore (Op.create nid now s s p m ent) store = store)
    ∧ ∀ (op : Op) (store : Store),
        (∀ r ∈ store, r.sender_id ≠ r.receiver_id) →
        ∀ r' ∈ stepStore op store, r'.sender_id ≠ r'.receiver_id := by
  constructor
  · intro store nid now s p m ent
    constructor
    · simp [createRequest]
    · simp [stepStore, applyOp, createRequest]
  · intro op store hall r' hr'
    rcases stepStore_shape op store with hs |
      ⟨nid, now, s, rcv, p, m, hne, _, hs⟩ | ⟨rid, now, st, _, hs⟩
    · rw [hs] at hr'
      exact hall r' hr'
    · rw [hs] at hr'
      rcases List.mem_append.mp hr' with h | h
      · exact hall r' h
      · have h' := List.mem_singleton.mp h
        subst h'
        simpa using hne
    · rw [hs] at hr'
      obtain ⟨r, hr, hfr⟩ := mem_setStatus.mp hr'
      by_cases hc : (r.id == rid) = true
      · rw [← hfr]
        simpa [hc] using hall r hr
      · rw [← hfr]
        simpa [hc] using hall r hr

/-- C3: on a pending request, accept or reject by any actor other than the
receiver fails with `NotAuthorized`, cancel by any actor other than the
sender fails with `NotAuthorized`, and in every such failure the store — and
so the request's `pending` status — is unchanged. -/
theorem collab_c3 (store : Store) (r : CollabRequest) (rid actor now : Nat)
    (hids : NodupIds store) (hr : r ∈ store) (hid : r.id = rid)
    (hp : r.status = Status.pending) :
    (actor ≠ r.receiver_id →
        acceptRequest store rid actor now = .error CollabError.NotAuthorized ∧
        rejectRequest store rid actor now = .error CollabError.NotAuthorized ∧
        stepStore (Op.accept rid actor now) store = store ∧
        stepStore (Op.reject rid actor now) store = store)
    ∧ (actor ≠ r.sender_id →
        cancelRequest store rid actor now = .error CollabError.NotAuthorized ∧
        stepStore (Op.cancel rid actor now) store = store) := by
  have hfq : findRequest store rid = some r :=
    findRequest_eq_some_of_mem hids hr hid
  constructor
  · intro hne
    have h1 : (actor != r.receiver_id) = true := by
      simpa using hne
    refine ⟨?_, ?_, ?_, ?_⟩
    · simp [acceptRequest, hfq, h1]
    · simp [rejectRequest, hfq, h1]
    · simp [stepStore, applyOp, acceptRequest, hfq, h1]
    · simp [stepStore, applyOp, rejectRequest, hfq, h1]
  · intro hne
    have h1 : (actor != r.sender_id) = true := by
      simpa using hne
    constructor
    · simp [cancelRequest, hfq, h1]
    · simp [stepStore, applyOp, cancelRequest, hfq, h1]

/-- C7: a cancel by the sender of a pending request succeeds, transitions
that request's status to `cancelled`, emits a `request_cancelled`
notification intent to the receiver, and mutates the record in place — the
store keeps exactly the same ids, so nothing is deleted. -/
theorem collab_c7 (store : Store) (r : CollabRequest) (now : Nat)
    (hids : NodupIds store) (hr : r ∈ store)
    (hp : r.status = Status.pending) :
    ∃ (store' : Store) (notif : NotifIntent),
      cancelRequest store r.id r.sender_id now = .ok (store', notif) ∧
      notif.ntype = NotifType.request_cancelled ∧
      notif.recipient_id = r.receiver_id ∧
      { r with status := Status.cancelled, updated_at := now } ∈ store' ∧
      store'.map CollabRequest.id = store.map CollabRequest.id := by
  have hfq : findRequest store r.id = some r :=
    findRequest_eq_some_of_mem hids hr rfl
  refine ⟨setStatus store r.id Status.cancelled now,
    { ntype := .request_cancelled, recipient_id := r.receiver_id,
      request_id := r.id }, ?_, rfl, rfl, ?_, setStatus_map_id⟩
  · simp [cancelRequest, hfq, hp]
  · exact mem_setStatus.mpr ⟨r, hr, by simp⟩

/-! ### Ordering lemmas for the listing -/

/-- `reqBefore` implies the non-strict ordering. -/
theorem reqGE_of_reqBefore {a b : CollabRequest} (h : reqBefore a b = true) :
    reqGE a b := by
  simp [reqBefore] at h
  unfold reqGE
  rcases h with h | ⟨h1, h2⟩
  · exact Or.inl h
  · exact Or.inr ⟨h1, Nat.le_of_lt h2⟩

/-- A failed `reqBefore` test implies the reversed non-strict ordering. -/
theorem reqGE_of_not_reqBefore {a b : CollabRequest}
    (h : reqBefore a b = false) : reqGE b a := by
  simp [reqBefore] at h
  obtain ⟨h1, h2⟩ := h
  unfold reqGE
  rcases Nat.lt_or_eq_of_le h1 with hlt | heq
  · exact Or.inl hlt
  · exact Or.inr ⟨heq.symm, h2 heq⟩

/-- The non-strict listing order is transitive. -/
theorem reqGE_trans {a b c : CollabRequest} (h1 : reqGE a b)
    (h2 : reqGE b c) : reqGE a c := by
  unfold reqGE at *
  omega

/-- Non-strict order plus distinct ids gives the strict listing order. -/
theorem reqGT_of_reqGE_ne {a b : CollabRequest} (h : reqGE a b)
    (hne : a.id ≠ b.id) : reqGT a b := by
  unfold reqGE at h
  unfold reqGT
  rcases h with h | ⟨h1, h2⟩
  · exact Or.inl h
  · exact Or.inr ⟨h1, Nat.lt_of_le_of_ne h2 fun hc => hne hc.symm⟩

/-- Inserting into the sorted list is a permutation of consing. -/
theorem insertReq_perm (a : CollabRequest) (l : List CollabRequest) :
    (insertReq a l).Perm (a :: l) := by
  induction l with
  | nil => simp [insertReq]
  | cons b l ih =>
    by_cases hc : reqBefore a b = true
    · simp [insertReq, hc]
    · have hc' : reqBefore a b = false := by
        simpa using hc
      simp only [insertReq, hc', Bool.false_eq_true, if_false]
      exact (ih.cons b).trans (List.Perm.swap a b l)

/-- The insertion sort is a permutation of its input. -/
theorem sortReqs_perm (l : List CollabRequest) : (sortReqs l).Perm l := by
  induction l with
  | nil => simp [sortReqs]
  | cons a l ih =>
    exact (insertReq_perm a (sortReqs l)).trans (ih.cons a)

/-- Insertion preserves sortedness in the non-strict listing order. -/
theorem pairwise_insertReq {a : CollabRequest} {l : List CollabRequest}
    (h : l.Pairwise reqGE) : (insertReq a l).Pairwise reqGE := by
  induction l with
  | nil => simp [insertReq]
  | cons b l ih =>
    rcases List.pairwise_cons.mp h with ⟨hb, hl⟩
    by_cases hc : reqBefore a b = true
    · simp only [insertReq, hc, if_true]
      refine List.Pairwise.cons ?_ h
      intro x hx
      rcases List.mem_cons.mp hx with hx | hx
      · rw [hx]
        exact reqGE_of_reqBefore hc
      · exact reqGE_trans (reqGE_of_reqBefore hc) (hb x hx)
    · have hc' : reqBefore a b = false := by
        simpa using hc
      simp only [insertReq, hc', Bool.false_eq_true, if_false]
      refine List.Pairwise.cons ?_ (ih hl)
      intro x hx
      rcases List.mem_cons.mp ((insertReq_perm a l).subset hx) with hx | hx
      · rw [hx]
        exact reqGE_of_not_reqBefore hc'
      · exact hb x hx

/-- The insertion sort produces a list sorted in the non-strict listing
order. -/
theorem pairwise_sortReqs (l : List CollabRequest) :
    (sortReqs l).Pairwise reqGE := by
  induction l with
  | nil => simp [sortReqs]
  | cons a l ih =>
    exact pairwise_insertReq ih

/-- C8: listing is a pure read of the store — it returns exactly the
requests matching the direction and the optional status filter — ordered by
`created_at` descending; under the primary-key property ties on
`created_at` are broken by `id` descending, a strict total order. -/
theorem collab_c8 (store : Store) (ident : Nat) (d : Direction)
    (sf : Option Status) :
    (∀ r, r ∈ listRequests store ident d sf ↔
        r ∈ store ∧ matchesDirection ident d r = true ∧
        matchesFilter sf r = true)
    ∧ (listRequests store ident d sf).Pairwise reqGE
    ∧ (NodupIds store → (listRequests store ident d sf).Pairwise reqGT) := by
  refine ⟨?_, pairwise_sortReqs _, ?_⟩
  · intro r
    unfold listRequests
    rw [(sortReqs_perm _).mem_iff, List.mem_filter]
    simp
  · intro hids
    have hsub : ((store.filter fun r =>
        matchesDirection ident d r && matchesFilter sf r).map
        CollabRequest.id).Sublist (store.map CollabRequest.id) :=
      (List.filter_sublist store).map CollabRequest.id
    have hnd := List.Nodup.sublist hsub hids
    have hnd2 : ((listRequests store ident d sf).map CollabRequest.id).Nodup := by
      unfold listRequests
      exact (((sortReqs_perm _).map CollabRequest.id).nodup_iff).mpr hnd
    have hneq : (listRequests store ident d sf).Pairwise
        fun a b : CollabRequest => a.id ≠ b.id := List.pairwise_map.mp hnd2
    have hge : (listRequests store ident d sf).Pairwise reqGE :=
      pairwise_sortReqs _
    exact (hge.and hneq).imp fun hab => reqGT_of_reqGE_ne hab.1 hab.2

/-! ### Entitlement gating -/

/-- C4: the entitlement decision is a pure function of the subscription
record — an action is permitted at the subscription's own tier exactly when
`is_active` is true, the expiry (when set) lies in the future, and the
plan's feature set contains the capability; an expired or inactive
subscription is evaluated as the implicit free tier (the decision is total:
it never produces an error). -/
theorem subs_c4 (sub : Subscription) (now : Nat) (f : Feature) :
    checkFeatureAccess sub now f = true ↔
      ((sub.is_active = true ∧ (∀ e, sub.expires_at = some e → now < e) ∧
          f ∈ planFeatures sub.plan) ∨
        ((sub.is_active = false ∨ ∃ e, sub.expires_at = some e ∧ e ≤ now) ∧
          f ∈ planFeatures Plan.free)) := by
  unfold checkFeatureAccess effectivePlan subExpired
  cases hact : sub.is_active with
  | false =>
    cases hexp : sub.expires_at with
    | none => simp [hexp]
    | some e => simp [hexp]
  | true =>
    cases hexp : sub.expires_at with
    | none => simp [hexp]
    | some e =>
      by_cases hle : e ≤ now
      · have hnl : ¬now < e := by
          omega
        simp [hexp, hle, hnl]
      · have hlt : now < e := by
          omega
        have hnle : ¬e ≤ now := hle
        simp [hexp, hnle, hlt]

/-- Features of the free tier also belong to the professional and
enterprise tiers. -/
theorem planFeatures_free_le (f : Feature)
    (hf : f ∈ planFeatures Plan.free) :
    f ∈ planFeatures Plan.professional ∧ f ∈ planFeatures Plan.enterprise := by
  cases f <;> simp_all [planFeatures]

/-- Features of the professional tier also belong to the enterprise tier. -/
theorem planFeatures_professional_le (f : Feature)
    (hf : f ∈ planFeatures Plan.professional) :
    f ∈ planFeatures Plan.enterprise := by
  cases f <;> simp_all [planFeatures]

/-- C6: entitlement gating is monotonic in the tier — every action permitted
under the free plan is permitted under professional and enterprise — and
each tier's entitlement set is a strict superset of the tier below. -/
theorem subs_c6 :
    (∀ f : Feature, f ∈ planFeatures Plan.free →
        f ∈ planFeatures Plan.professional ∧ f ∈ planFeatures Plan.enterprise)
    ∧ (∀ f : Feature, f ∈ planFeatures Plan.professional →
        f ∈ planFeatures Plan.enterprise)
    ∧ (∃ f : Feature, f ∈ planFeatures Plan.professional ∧
        f ∉ planFeatures Plan.free)
    ∧ (∃ f : Feature, f ∈ planFeatures Plan.enterprise ∧
        f ∉ planFeatures Plan.professional)
    ∧ ∀ (now : Nat) (x : Option Nat) (f : Feature),
        checkFeatureAccess
          { plan := Plan.free, is_active := true, expires_at := x } now f =
          true →
        checkFeatureAccess
          { plan := Plan.professional, is_active := true, expires_at := x }
          now f = true ∧
        checkFeatureAccess
          { plan := Plan.enterprise, is_active := true, expires_at := x }
          now f = true := by
  refine ⟨planFeatures_free_le, planFeatures_professional_le, ?_, ?_, ?_⟩
  · exact ⟨Feature.advanced_search, by simp [planFeatures], by simp [planFeatures]⟩
  · exact ⟨Feature.priority_support, by simp [planFeatures], by simp [planFeatures]⟩
  · intro now x f h
    unfold checkFeatureAccess effectivePlan at h ⊢
    cases hexp : subExpired { plan := Plan.free, is_active := true, expires_at := x } now with
    | true =>
      have hexp2 : ∀ pl : Plan, subExpired { plan := pl, is_active := true, expires_at := x } now = true := by
        intro pl
        simpa [subExpired] using hexp
      simp [hexp2] at h ⊢
      exact h
    | false =>
      have hexp2 : ∀ pl : Plan, subExpired { plan := pl, is_active := true, expires_at := x } now = false := by
        intro pl
        simpa [subExpired] using hexp
      simp [hexp2] at h ⊢
      exact planFeatures_free_le f h

/-! ### Frontend fallback and API client -/

/-- C9: whenever any of the three initial-load calls fails, both frontend
variants substitute the hard-coded mock projects and mock profiles for the
server data; the `integrated.js` variant shows no toast at all, and the
unnamed-script variant shows only an `info` toast — neither surfaces the
failure as an error state. -/
theorem frontend_c9 (st : FrontendState) (pr : FetchResult (List MockProject))
    (pf : FetchResult (List MockProfile)) (sr : FetchResult Nat)
    (hfail : pr.isErr = true ∨ pf.isErr = true ∨ sr.isErr = true) :
    ((loadInitialData st pr pf sr).1.projects = getMockProjects ∧
      (loadInitialData st pr pf sr).1.profiles = getMockProfiles ∧
      (loadInitialData st pr pf sr).2 = [])
    ∧ ((loadInitialDataMain st pr pf sr).1.projects = getMockProjects ∧
      (loadInitialDataMain st pr pf sr).1.profiles =
        getIndianStudentProfiles ∧
      ∀ t ∈ (loadInitialDataMain st pr pf sr).2, t.kind ≠ "error") := by
  have hinfo : ("info" : String) ≠ "error" := by
    decide
  cases pr with
  | err msg =>
    refine ⟨⟨rfl, rfl, rfl⟩, rfl, rfl, ?_⟩
    intro t ht
    simp [loadInitialDataMain] at ht
    rw [ht]
    exact hinfo
  | ok ps =>
    cases pf with
    | err msg =>
      refine ⟨⟨rfl, rfl, rfl⟩, rfl, rfl, ?_⟩
      intro t ht
      simp [loadInitialDataMain] at ht
      rw [ht]
      exact hinfo
    | ok pfs =>
      cases sr with
      | err msg =>
        refine ⟨⟨rfl, rfl, rfl⟩, rfl, rfl, ?_⟩
        intro t ht
        simp [loadInitialDataMain] at ht
        rw [ht]
        exact hinfo
      | ok s =>
        exfalso
        simp [FetchResult.isErr] at hfail

/-- C10: `getCurrentUser` returns null exactly when the thrown error's
message includes `401` or `403`; every other failure is re-thrown to the
caller unchanged (and a successful response is passed through). -/
theorem api_c10 {α : Type} (e : ApiError) (u : α) :
    ((strIncludes e.message "401" || strIncludes e.message "403") = true →
        getCurrentUser (Except.error e : Except ApiError α) = Except.ok none)
    ∧ ((strIncludes e.message "401" || strIncludes e.message "403") = false →
        getCurrentUser (Except.error e : Except ApiError α) = Except.error e)
    ∧ getCurrentUser (Except.ok u : Except ApiError α) = Except.ok (some u) := by
  refine ⟨?_, ?_, rfl⟩ <;> intro h <;> simp [getCurrentUser, h]

/-! ### Concrete instances -/

/-- A concrete pending request row. -/
def rowW : CollabRequest :=
  { id := 1, sender_id := 10, receiver_id := 20, project_id := none,
    message := none, status := Status.pending, created_at := 0,
    updated_at := 0 }

/-- A concrete one-row store. -/
def storeW : Store := [rowW]

/-- The concrete row after an accept at time 5. -/
def rowWacc : CollabRequest :=
  { rowW with status := Status.accepted, updated_at := 5 }

/-- A concrete store with a tie on `created_at` between ids 1 and 2. -/
def storeW8 : Store :=
  [{ id := 1, sender_id := 10, receiver_id := 20, project_id := none,
     message := none, status := Status.pending, created_at := 5,
     updated_at := 5 },
   { id := 2, sender_id := 10, receiver_id := 21, project_id := none,
     message := none, status := Status.accepted, created_at := 5,
     updated_at := 6 },
   { id := 3, sender_id := 10, receiver_id := 22, project_id := none,
     message := none, status := Status.pending, created_at := 7,
     updated_at := 7 }]

/-- A concrete empty frontend state. -/
def stW : FrontendState := { projects := [], profiles := [] }

/-- Witness for C1 at a concrete accept on a one-row store. -/
theorem collab_c1_witness :
    rowWacc.status = Status.pending ∨
    ∃ r ∈ storeW, r.id = rowWacc.id ∧
      (rowWacc.status = r.status ∨
        (r.status = Status.pending ∧ rowWacc.status.isTerminal = true)) :=
  (collab_c1 (Op.accept 1 20 5) storeW (by decide) (by decide)).1 rowWacc
    (by decide)

/-- Witness for C2: the invariant survives a concrete accept, and a
duplicate create fails concretely. -/
theorem collab_c2_witness :
    PendingUnique (stepStore (Op.accept 1 20 5) storeW) ∧
    (createRequest storeW 2 6 10 20 none none true =
        .error CollabError.DuplicateRequest ∧
      stepStore (Op.create 2 6 10 20 none none true) storeW = storeW) :=
  ⟨collab_c2.1 (Op.accept 1 20 5) storeW (by decide),
   collab_c2.2 storeW 2 6 10 20 none none true (by decide) (by decide)⟩

/-- Witness for C3 at the concrete non-party actor 99. -/
theorem collab_c3_witness :
    (acceptRequest storeW 1 99 7 = .error CollabError.NotAuthorized ∧
      rejectRequest storeW 1 99 7 = .error CollabError.NotAuthorized ∧
      stepStore (Op.accept 1 99 7) storeW = storeW ∧
      stepStore (Op.reject 1 99 7) storeW = storeW) ∧
    (cancelRequest storeW 1 99 7 = .error CollabError.NotAuthorized ∧
      stepStore (Op.cancel 1 99 7) storeW = storeW) :=
  ⟨(collab_c3 storeW rowW 1 99 7 (by decide) (by decide) (by decide)
      (by decide)).1 (by decide),
   (collab_c3 storeW rowW 1 99 7 (by decide) (by decide) (by decide)
      (by decide)).2 (by decide)⟩

/-- Witness for C5: a concrete self-request fails, and the sender-receiver
distinctness survives a concrete accept. -/
theorem collab_c5_witness :
    (createRequest storeW 3 4 7 7 none none true =
        .error CollabError.SelfRequest ∧
      stepStore (Op.create 3 4 7 7 none none true) storeW = storeW) ∧
    rowWacc.sender_id ≠ rowWacc.receiver_id :=
  ⟨collab_c5.1 storeW 3 4 7 none none true,
   collab_c5.2 (Op.accept 1 20 5) storeW (by decide) rowWacc (by decide)⟩

/-- Witness for C6 at the concrete feature `basic_search`. -/
theorem subs_c6_witness :
    (Feature.basic_search ∈ planFeatures Plan.professional ∧
      Feature.basic_search ∈ planFeatures Plan.enterprise) ∧
    (checkFeatureAccess
        { plan := Plan.professional, is_active := true, expires_at := none }
        0 Feature.basic_search = true ∧
      checkFeatureAccess
        { plan := Plan.enterprise, is_active := true, expires_at := none }
        0 Feature.basic_search = true) :=
  ⟨subs_c6.1 Feature.basic_search (by decide),
   subs_c6.2.2.2.2 0 none Feature.basic_search (by decide)⟩

/-- Witness for C7 at a concrete cancel by the sender. -/
theorem collab_c7_witness :
    ∃ (store' : Store) (notif : NotifIntent),
      cancelRequest storeW rowW.id rowW.sender_id 9 = .ok (store', notif) ∧
      notif.ntype = NotifType.request_cancelled ∧
      notif.recipient_id = rowW.receiver_id ∧
      { rowW with status := Status.cancelled, updated_at := 9 } ∈ store' ∧
      store'.map CollabRequest.id = storeW.map CollabRequest.id :=
  collab_c7 storeW rowW 9 (by decide) (by decide) (by decide)

/-- Witness for C8: strict ordering of a concrete listing with a
`created_at` tie. -/
theorem collab_c8_witness :
    (listRequests storeW8 10 Direction.sent none).Pairwise reqGT :=
  (collab_c8 storeW8 10 Direction.sent none).2.2 (by decide)

/-- Witness for C9 at a concrete failed projects call. -/
theorem frontend_c9_witness :
    ((loadInitialData stW (FetchResult.err "network down") (FetchResult.ok [])
        (FetchResult.ok 0)).1.projects = getMockProjects ∧
      (loadInitialData stW (FetchResult.err "network down")
        (FetchResult.ok []) (FetchResult.ok 0)).1.profiles = getMockProfiles ∧
      (loadInitialData stW (FetchResult.err "network down")
        (FetchResult.ok []) (FetchResult.ok 0)).2 = []) ∧
    ((loadInitialDataMain stW (FetchResult.err "network down")
        (FetchResult.ok []) (FetchResult.ok 0)).1.projects =
        getMockProjects ∧
      (loadInitialDataMain stW (FetchResult.err "network down")
        (FetchResult.ok []) (FetchResult.ok 0)).1.profiles =
        getIndianStudentProfiles ∧
      ∀ t ∈ (loadInitialDataMain stW (FetchResult.err "network down")
        (FetchResult.ok []) (FetchResult.ok 0)).2, t.kind ≠ "error") :=
  frontend_c9 stW (FetchResult.err "network down") (FetchResult.ok [])
    (FetchResult.ok 0) (Or.inl (by decide))

/-- Witness for C10 at concrete 401 and 500 error messages. -/
theorem api_c10_witness :
    getCurrentUser
        (Except.error { message := "HTTP 401: Unauthorized" } :
          Except ApiError Nat) = Except.ok none ∧
    getCurrentUser
        (Except.error { message := "HTTP 500: Internal Server Error" } :
          Except ApiError Nat) =
      Except.error { message := "HTTP 500: Internal Server Error" } ∧
    getCurrentUser (Except.ok 0 : Except ApiError Nat) =
      Except.ok (some 0) :=
  ⟨(api_c10 { message := "HTTP 401: Unauthorized" } (0 : Nat)).1 (by decide),
   (api_c10 { message := "HTTP 500: Internal Server Error" } (0 : Nat)).2.1
     (by decide),
   (api_c10 { message := "HTTP 401: Unauthorized" } (0 : Nat)).2.2⟩

end Collabthon
